import Mathlib

/-!
# ADVi3++: settings persistence, feature flags and screen dispatch

A shallow embedding of `core/settings.cpp`, `screens/leveling/z_height.cpp` and
`screens/controls/controls.cpp`.

Conventions of the embedding.

* Unsigned 16-bit values (`uint16_t`, the key codes, the feature mask) are natural
  numbers; the one place where the sources do unsigned arithmetic that can wrap
  (`Settings::size_of`) reduces modulo `2 ^ 16` explicitly.
* The cursor `eeprom_index` is an `int` in the sources and an `Int` here.
* The singletons of the firmware (`settings`, `pid_settings`, `xtwist`,
  `eeprom_mismatch`, `pages`, `background_task`, `sensor_z_height`) are the fields
  of one record `World`, threaded explicitly through every member function.
* The storage pass the storage manager hands to the hooks (the callback with the
  bytes behind it, `eeprom_index`, `working_crc`) is the field `World.eeprom`.
* What a query of the motion layer answers during a call is an argument of the
  embedded function (`is_busy`, `isMachineHomed`, `isPrinting`, ...).
* A `switch` is a chain of tests in the order of its labels; the labels of one
  `switch` are pairwise distinct in C++, so the first match is the only match.
* Both variants of `SensorZHeight::do_prepare_page` are embedded: the one compiled
  with `ADVi3PP_PROBE` under the name of the source, the other one as
  `do_prepare_page_no_probe`.
* Members that compute on `double` (`get_multiplier_value`, `adjust_height`,
  `plus`, `minus`), `Settings::restore`, `Settings::send_lcd_values` and
  `screens/print/pause.cpp` are not embedded; no property below is about them.
* A call into a collaborator whose body is in none of the source files and
  whose behaviour the specification does not describe is recorded, in program
  order, in `World.calls`.
-/

namespace ADVi3pp

/-! ## Enumerations -/

/-- The pages named in the sources; every other page of the panel is `other id`. -/
inductive Page where
  | None
  | Controls
  | Tuning
  | Settings
  | Infos
  | MotorsSettings
  | Leveling
  | Print
  | ZHeightTuning
  | NoSensor
  | other (id : Nat)
  deriving DecidableEq, Repr

/-- The type `KeyValue` is an enumeration over `uint16_t`: a command is its numeric code. -/
abbrev KeyValue := Nat

/-- The numeric codes of the `KeyValue` enumerators the sources name.  The
enumeration itself is declared outside the sources, so the codes are parameters. -/
structure KeyCodes where
  Temps : KeyValue
  Print : KeyValue
  Controls : KeyValue
  Tuning : KeyValue
  Settings : KeyValue
  Infos : KeyValue
  Motors : KeyValue
  Leveling : KeyValue
  PrintSettings : KeyValue
  Back : KeyValue
  Multiplier1 : KeyValue
  Multiplier2 : KeyValue
  Multiplier3 : KeyValue

/-- Kind of temperature: hotend or bed. -/
inductive TemperatureKind where
  | Hotend
  | Bed
  deriving DecidableEq, Repr

/-- The multiplier selected on the Z-height tuning page. -/
inductive Multiplier where
  | M1
  | M2
  | M3
  deriving DecidableEq, Repr

/-- Axes of `ExtUI`. -/
inductive Axis where
  | X
  | Y
  | Z
  deriving DecidableEq, Repr

/-- The member functions the sources hand to `background_task.set`. -/
inductive Callback where
  | SensorZHeight_post_home_task
  | Controls_show_sd
  deriving DecidableEq, Repr

/-- Calls into collaborators that are outside the sources and that the
specification leaves opaque (display, motion layer, sibling screens). -/
inductive Call where
  | setup_show
  | wait_wait (message : String)
  | core_ensure_not_printing
  | core_inject_commands (commands : String)
  | ExtUI_setZOffset_mm (value : ℚ)
  | ExtUI_setFeedrate_mm_s (value : ℚ)
  | ExtUI_setAxisPosition_mm (value : ℚ) (axis : Axis)
  | ExtUI_setSoftEndstopState (state : Bool)
  | ExtUI_mountMedia
  | ExtUI_FileList_refresh
  | WriteRamRequest_Value0_write_word (multiplier : Multiplier)
  | temperatures_show
  | print_settings_show
  | sd_card_show
  | status_reset
  | status_set (message : String)
  | back_command
  | Parent_do_back_command
  | Parent_do_save_command
  deriving DecidableEq, Repr

/-! ## Persistent store and record codec -/

/-- A storage pass as the settings hooks receive it: the persistent bytes behind
the `eeprom_write` / `eeprom_read` callback, the cursor `eeprom_index` and the
running checksum `working_crc`. -/
structure Eeprom where
  mem : Int → Nat
  index : Int
  crc : Nat

/-- The interface every sub-record exposes to the settings store.  The classes
themselves (`PidSettings`, `XTwist`) are outside the sources, so their passes are
parameters; `size_of` is the declared size in bytes and `defaults` the factory
content. -/
structure SubRecord (σ : Type) where
  write : σ → Eeprom → Eeprom
  read : σ → Eeprom → σ × Eeprom
  validate : σ → Eeprom → Bool × σ × Eeprom
  size_of : Nat
  defaults : σ

/-- The PID sub-record also picks a calibration profile for a target temperature. -/
structure PidSettings (σ : Type) extends SubRecord σ where
  choose_best_pid : TemperatureKind → Nat → σ → σ

/-- Everything the sources use that is declared outside them: constants of
`versions.h` and `parameters.h`, the width of the `Feature` enumeration, the
checksum step of the storage callback, the key codes and the two sub-record
classes. -/
structure Build (σp σx : Type) where
  settings_version : Nat
  DEFAULT_FEATURES : Nat
  sizeof_Feature : Nat
  crc16 : Nat → Nat → Nat
  FEEDRATE_Z : ℚ
  home_page : Page
  default_delay : Nat
  keys : KeyCodes
  pid_settings : PidSettings σp
  xtwist : SubRecord σx

/-- Modelled from the spec: `EepromWrite::write` of a value of `n` bytes
(`core/eeprom.h` and the storage callback are outside the sources).  The value is
stored byte by byte, least significant first; every byte advances the cursor by
one and is folded into the running checksum. -/
def EepromWrite.write (crc16 : Nat → Nat → Nat) : Nat → Nat → Eeprom → Eeprom
  | 0, _, e => e
  | n + 1, v, e =>
    EepromWrite.write crc16 n (v / 256)
      { mem := Function.update e.mem e.index (v % 256)
        index := e.index + 1
        crc := crc16 e.crc (v % 256) }

/-- Modelled from the spec: `EepromRead::read` of a value of `n` bytes
(`core/eeprom.h` and the storage callback are outside the sources).  It consumes
exactly `n` bytes whatever they hold and returns the value they encode, least
significant byte first. -/
def EepromRead.read (crc16 : Nat → Nat → Nat) : Nat → Eeprom → Nat × Eeprom
  | 0, e => (0, e)
  | n + 1, e =>
    let b := e.mem e.index % 256
    let r := EepromRead.read crc16 n { e with index := e.index + 1, crc := crc16 e.crc b }
    (b + 256 * r.1, r.2)

/-! ## Collaborating singletons -/

/-- Navigation state: the page shown and the two single-slot registers. -/
structure Pages where
  current : Page
  forward : Option Page
  back : Option Page
  deriving DecidableEq, Repr

/-- The single deferred task: a callback and its delay. -/
structure Task where
  callback : Callback
  delay : Nat
  deriving DecidableEq, Repr

/-- The state of the `sensor_z_height` screen. -/
structure SensorZHeight where
  multiplier_ : Multiplier
  old_offset_ : ℚ
  deriving DecidableEq, Repr

/-- The singletons the embedded functions read and write. -/
structure World (σp σx : Type) where
  pid_settings : σp
  xtwist : σx
  features_ : Nat
  last_used_temperature_ : Nat × Nat
  eeprom_mismatch : Bool
  pages : Pages
  background_task : Option Task
  sensor_z_height : SensorZHeight
  eeprom : Eeprom
  calls : List Call

section Model

variable {σp σx : Type}

/-- Records a call into an opaque collaborator. -/
def call (c : Call) (w : World σp σx) : World σp σx :=
  { w with calls := w.calls ++ [c] }

/-- Modelled from the spec: `pages.show(page)` unconditionally switches the
current page (the navigation stack is outside the sources). -/
def Pages.show (page : Page) (w : World σp σx) : World σp σx :=
  { w with pages := { w.pages with current := page } }

/-- Modelled from the spec: `pages.save_forward_page()` captures the page to come
back to in the forward slot, overwriting what it held (the navigation stack is
outside the sources). -/
def Pages.save_forward_page (w : World σp σx) : World σp σx :=
  { w with pages := { w.pages with forward := some w.pages.current } }

/-- Modelled from the spec: `pages.show_back_page()` switches to the saved back
target and clears it, and does nothing when none is saved (the navigation stack
is outside the sources). -/
def Pages.show_back_page (w : World σp σx) : World σp σx :=
  match w.pages.back with
  | some p => { w with pages := { w.pages with current := p, back := none } }
  | none => w

/-- Modelled from the spec: `pages.reset()` restores the current page to the
designated home page and clears both registers (the navigation stack is outside
the sources). -/
def Pages.reset (B : Build σp σx) (w : World σp σx) : World σp σx :=
  { w with pages := { current := B.home_page, forward := none, back := none } }

/-- Modelled from the spec: `background_task.set(callback, delay)` replaces
whatever task is pending (the scheduler is outside the sources). -/
def BackgroundTask.set (cb : Callback) (delay : Nat) (w : World σp σx) : World σp σx :=
  { w with background_task := some { callback := cb, delay := delay } }

/-- Modelled from the spec: `background_task.clear()` drops the pending task
(the scheduler is outside the sources). -/
def BackgroundTask.clear (w : World σp σx) : World σp σx :=
  { w with background_task := none }

/-- Modelled from the spec: `eeprom_mismatch.does_mismatch()` reads the
settings-look-corrupted indicator (the screen is outside the sources). -/
def EepromMismatch.does_mismatch (w : World σp σx) : Bool :=
  w.eeprom_mismatch

/-- Modelled from the spec: `eeprom_mismatch.set_mismatch()` raises the
indicator (the screen is outside the sources). -/
def EepromMismatch.set_mismatch (w : World σp σx) : World σp σx :=
  { w with eeprom_mismatch := true }

/-- Modelled from the spec: `eeprom_mismatch.reset_mismatch()` clears the
indicator (the screen is outside the sources). -/
def EepromMismatch.reset_mismatch (w : World σp σx) : World σp σx :=
  { w with eeprom_mismatch := false }

/-- Modelled from the spec: `flip_bits(lhs, rhs)` flips in `lhs` each bit of
`rhs` (the bit helpers are outside the sources). -/
def flip_bits (lhs rhs : Nat) : Nat :=
  lhs ^^^ rhs

/-- Modelled from the spec: `test_all_bits(lhs, rhs)` holds only if all bits of
`rhs` are set in `lhs` (the bit helpers are outside the sources). -/
def test_all_bits (lhs rhs : Nat) : Bool :=
  (lhs &&& rhs) == rhs

/-- Modelled from the spec: a sub-record's `reset()` restores its factory
defaults (the sub-record classes are outside the sources). -/
def SubRecord.reset {σ : Type} (R : SubRecord σ) (_ : σ) : σ :=
  R.defaults

/-! ## `core/settings.cpp` -/

/-- Member function `Settings::write`. -/
def Settings.write (B : Build σp σx) (w : World σp σx) : Bool × World σp σx :=
  let e1 := EepromWrite.write B.crc16 2 B.settings_version w.eeprom
  let e2 := B.pid_settings.write w.pid_settings e1
  let e3 := B.xtwist.write w.xtwist e2
  let e4 := EepromWrite.write B.crc16 B.sizeof_Feature w.features_ e3
  (true, { w with eeprom := e4 })

/-- Member function `Settings::validate`. -/
def Settings.validate (B : Build σp σx) (w : World σp σx) : Bool × World σp σx :=
  let valid := true
  let r1 := EepromRead.read B.crc16 2 w.eeprom
  let version := r1.1
  let valid := if version ≠ B.settings_version then false else valid
  let r2 := B.pid_settings.validate w.pid_settings r1.2
  let valid := if !r2.1 then false else valid
  let r3 := B.xtwist.validate w.xtwist r2.2.2
  let valid := if !r3.1 then false else valid
  let r4 := EepromRead.read B.crc16 B.sizeof_Feature r3.2.2
  (valid, { w with pid_settings := r2.2.1, xtwist := r3.2.1, eeprom := r4.2 })

/-- Member function `Settings::read`. -/
def Settings.read (B : Build σp σx) (w : World σp σx) : World σp σx :=
  let r1 := EepromRead.read B.crc16 2 w.eeprom
  let r2 := B.pid_settings.read w.pid_settings r1.2
  let r3 := B.xtwist.read w.xtwist r2.2
  let r4 := EepromRead.read B.crc16 B.sizeof_Feature r3.2
  { w with pid_settings := r2.1, xtwist := r3.1, features_ := r4.1, eeprom := r4.2 }

/-- Member function `Settings::reset`. -/
def Settings.reset (B : Build σp σx) (w : World σp σx) : World σp σx :=
  { w with
    pid_settings := B.pid_settings.reset w.pid_settings
    xtwist := B.xtwist.reset w.xtwist
    features_ := B.DEFAULT_FEATURES }

/-- Member function `Settings::size_of`, a `uint16_t`. -/
def Settings.size_of (B : Build σp σx) : Nat :=
  (2 + B.pid_settings.size_of + B.xtwist.size_of + B.sizeof_Feature) % 2 ^ 16

/-- Member function `Settings::on_factory_reset`. -/
def Settings.on_factory_reset (B : Build σp σx) (w : World σp σx) : World σp σx :=
  let w := Settings.reset B w
  if EepromMismatch.does_mismatch w then w
  else
    let w := Pages.reset B w
    call Call.setup_show w

/-- Member function `Settings::on_store_settings`. -/
def Settings.on_store_settings (B : Build σp σx) (w : World σp σx) : World σp σx :=
  (Settings.write B w).2

/-- Member function `Settings::on_load_settings`. -/
def Settings.on_load_settings (B : Build σp σx) (validating : Bool) (w : World σp σx) :
    Bool × World σp σx :=
  if validating then Settings.validate B w
  else (true, Settings.read B w)

/-- Member function `Settings::on_sizeof_settings`. -/
def Settings.on_sizeof_settings (B : Build σp σx) : Nat :=
  Settings.size_of B

/-- Member function `Settings::on_settings_written`. -/
def Settings.on_settings_written (_success : Bool) (w : World σp σx) : World σp σx :=
  w

/-- Member function `Settings::on_settings_loaded`. -/
def Settings.on_settings_loaded (success : Bool) (w : World σp σx) : World σp σx :=
  if !success then EepromMismatch.set_mismatch w else w

/-- Member function `Settings::on_settings_validated`. -/
def Settings.on_settings_validated (success : Bool) (w : World σp σx) : World σp σx :=
  if !success then EepromMismatch.set_mismatch w else w

/-- Modelled from the spec: `ExtUI::saveSettings` (the storage-management
collaborator, outside the sources) opens a write pass over the persistent store
through the store hook and reports its outcome to `on_settings_written`. -/
def ExtUI.saveSettings (B : Build σp σx) (success : Bool) (w : World σp σx) : World σp σx :=
  Settings.on_settings_written success (Settings.on_store_settings B w)

/-- Member function `Settings::save`. -/
def Settings.save (B : Build σp σx) (success : Bool) (w : World σp σx) : World σp σx :=
  let w := EepromMismatch.reset_mismatch w
  ExtUI.saveSettings B success w

/-- Member function `Settings::flip_features`. -/
def Settings.flip_features (features : Nat) (w : World σp σx) : Nat × World σp σx :=
  let w := { w with features_ := flip_bits w.features_ features }
  (w.features_ &&& features, w)

/-- Member function `Settings::is_feature_enabled`. -/
def Settings.is_feature_enabled (features : Nat) (w : World σp σx) : Bool :=
  test_all_bits w.features_ features

/-- The array index `kind == TemperatureKind::Hotend`. -/
def hotend_index (kind : TemperatureKind) : Bool :=
  kind == TemperatureKind.Hotend

/-- Element `i` of the two-element array `last_used_temperature_`. -/
def array_get (a : Nat × Nat) (i : Bool) : Nat :=
  if i then a.2 else a.1

/-- Assignment to element `i` of the two-element array `last_used_temperature_`. -/
def array_set (a : Nat × Nat) (i : Bool) (v : Nat) : Nat × Nat :=
  if i then (a.1, v) else (v, a.2)

/-- Member function `Settings::get_last_used_temperature`. -/
def Settings.get_last_used_temperature (kind : TemperatureKind) (w : World σp σx) : Nat :=
  array_get w.last_used_temperature_ (hotend_index kind)

/-- Member function `Settings::on_set_temperature`. -/
def Settings.on_set_temperature (B : Build σp σx) (kind : TemperatureKind) (temperature : Nat)
    (w : World σp σx) : World σp σx :=
  if temperature = 0 then w
  else
    let w := { w with
      last_used_temperature_ := array_set w.last_used_temperature_ (hotend_index kind) temperature }
    { w with pid_settings := B.pid_settings.choose_best_pid kind temperature w.pid_settings }

/-! ## `screens/leveling/z_height.cpp`, build with `ADVi3PP_PROBE` -/

/-- Member function `SensorZHeight::send_data`: the word sent is `static_cast<uint16_t>(multiplier_)`. -/
def SensorZHeight.send_data (w : World σp σx) : World σp σx :=
  call (Call.WriteRamRequest_Value0_write_word w.sensor_z_height.multiplier_) w

/-- Member function `SensorZHeight::reset`. -/
def SensorZHeight.reset (w : World σp σx) : World σp σx :=
  { w with sensor_z_height := { w.sensor_z_height with multiplier_ := Multiplier.M1 } }

/-- Member function `SensorZHeight::multiplier1_command`. -/
def SensorZHeight.multiplier1_command (w : World σp σx) : World σp σx :=
  SensorZHeight.send_data
    { w with sensor_z_height := { w.sensor_z_height with multiplier_ := Multiplier.M1 } }

/-- Member function `SensorZHeight::multiplier2_command`. -/
def SensorZHeight.multiplier2_command (w : World σp σx) : World σp σx :=
  SensorZHeight.send_data
    { w with sensor_z_height := { w.sensor_z_height with multiplier_ := Multiplier.M2 } }

/-- Member function `SensorZHeight::multiplier3_command`. -/
def SensorZHeight.multiplier3_command (w : World σp σx) : World σp σx :=
  SensorZHeight.send_data
    { w with sensor_z_height := { w.sensor_z_height with multiplier_ := Multiplier.M3 } }

/-- The `switch` of `SensorZHeight::do_dispatch`: the screen's own command table.
`none` is the `default` label. -/
def SensorZHeight.own_table (B : Build σp σx) (key_value : KeyValue) (w : World σp σx) :
    Option (World σp σx) :=
  if key_value = B.keys.Multiplier1 then some (SensorZHeight.multiplier1_command w)
  else if key_value = B.keys.Multiplier2 then some (SensorZHeight.multiplier2_command w)
  else if key_value = B.keys.Multiplier3 then some (SensorZHeight.multiplier3_command w)
  else none

/-- Member function `SensorZHeight::do_dispatch`.  `Parent_do_dispatch` is the dispatch of the base
class `Screen`, which is outside the sources. -/
def SensorZHeight.do_dispatch (B : Build σp σx)
    (Parent_do_dispatch : KeyValue → World σp σx → Bool × World σp σx)
    (key_value : KeyValue) (w : World σp σx) : Bool × World σp σx :=
  let r := Parent_do_dispatch key_value w
  if r.1 then (true, r.2)
  else
    match SensorZHeight.own_table B key_value r.2 with
    | some w => (true, w)
    | none => (false, r.2)

/-- Member function `SensorZHeight::do_prepare_page`, as compiled when `ADVi3PP_PROBE` is defined.
`ensure_not_printing` is what `core.ensure_not_printing()` returns and
`getZOffset_mm` what `ExtUI::getZOffset_mm()` returns. -/
def SensorZHeight.do_prepare_page (ensure_not_printing : Bool) (getZOffset_mm : ℚ)
    (w : World σp σx) : Page × World σp σx :=
  let w := call Call.core_ensure_not_printing w
  if !ensure_not_printing then (Page.None, w)
  else
    let w := Pages.save_forward_page w
    let w := { w with sensor_z_height := { w.sensor_z_height with old_offset_ := getZOffset_mm } }
    let w := call (Call.ExtUI_setZOffset_mm 0) w
    let w := call (Call.wait_wait ("Homing...")) w
    let w := call (Call.core_inject_commands ("G28 F6000")) w
    let w := BackgroundTask.set Callback.SensorZHeight_post_home_task 200 w
    (Page.None, w)

/-- Member function `SensorZHeight::do_prepare_page`, as compiled when `ADVi3PP_PROBE` is not
defined. -/
def SensorZHeight.do_prepare_page_no_probe (w : World σp σx) : Page × World σp σx :=
  (Page.NoSensor, w)

/-- Member function `SensorZHeight::post_home_task`.  `is_busy` is what `core.is_busy()` returns
and `isMachineHomed` what `ExtUI::isMachineHomed()` returns. -/
def SensorZHeight.post_home_task (B : Build σp σx) (is_busy isMachineHomed : Bool)
    (w : World σp σx) : World σp σx :=
  if is_busy || !isMachineHomed then w
  else
    let w := BackgroundTask.clear w
    let w := SensorZHeight.reset w
    let w := call (Call.ExtUI_setFeedrate_mm_s B.FEEDRATE_Z) w
    let w := call (Call.ExtUI_setAxisPosition_mm 100 Axis.X) w
    let w := call (Call.ExtUI_setAxisPosition_mm 100 Axis.Y) w
    let w := call (Call.ExtUI_setAxisPosition_mm 0 Axis.Z) w
    let w := call (Call.ExtUI_setSoftEndstopState false) w
    let w := SensorZHeight.send_data w
    Pages.show Page.ZHeightTuning w

/-- Member function `SensorZHeight::do_back_command`. -/
def SensorZHeight.do_back_command (w : World σp σx) : World σp σx :=
  let w := call (Call.ExtUI_setSoftEndstopState true) w
  let w := call (Call.ExtUI_setZOffset_mm w.sensor_z_height.old_offset_) w
  let w := call (Call.core_inject_commands ("G28 Z F1200\nG28 X Y F6000")) w
  call Call.Parent_do_back_command w

/-- Member function `SensorZHeight::do_save_command`.  `getAxisPosition_mm_Z` is what
`ExtUI::getAxisPosition_mm(ExtUI::Z)` returns. -/
def SensorZHeight.do_save_command (B : Build σp σx) (getAxisPosition_mm_Z : ℚ)
    (w : World σp σx) : World σp σx :=
  let w := call (Call.ExtUI_setZOffset_mm getAxisPosition_mm_Z) w
  let w := call (Call.ExtUI_setSoftEndstopState true) w
  let w := call (Call.ExtUI_setFeedrate_mm_s B.FEEDRATE_Z) w
  let w := call (Call.ExtUI_setAxisPosition_mm 4 Axis.Z) w
  let w := call (Call.core_inject_commands ("G28 Z F1200\nG28 X Y F6000")) w
  call Call.Parent_do_save_command w

/-! ## `screens/controls/controls.cpp` -/

/-- Member function `Controls::show_temps`. -/
def Controls.show_temps (isPrinting isPrintingPaused : Bool) (w : World σp σx) : World σp σx :=
  if !isPrinting && !isPrintingPaused then call Call.temperatures_show w
  else Pages.show Page.Print w

/-- Member function `Controls::show_print_settings`. -/
def Controls.show_print_settings (isPrinting isPrintingPaused : Bool) (w : World σp σx) :
    World σp σx :=
  if !isPrinting && !isPrintingPaused then call Call.temperatures_show w
  else call Call.print_settings_show w

/-- Member function `Controls::show_print`.  The delay is the default argument of
`background_task.set`. -/
def Controls.show_print (B : Build σp σx) (isPrinting isPrintingPaused : Bool)
    (w : World σp σx) : World σp σx :=
  if isPrinting || isPrintingPaused then Pages.show Page.Print w
  else
    let w := call (Call.wait_wait ("Accessing the SD card...")) w
    BackgroundTask.set Callback.Controls_show_sd B.default_delay w

/-- Member function `Controls::show_sd`.  `isMediaInserted` is what `ExtUI::isMediaInserted()`
returns. -/
def Controls.show_sd (isMediaInserted : Bool) (w : World σp σx) : World σp σx :=
  let w := BackgroundTask.clear w
  let w := call Call.ExtUI_mountMedia w
  let w := call Call.ExtUI_FileList_refresh w
  let w := call Call.status_reset w
  if !isMediaInserted then
    let w := call (Call.status_set ("No SD card detected.")) w
    Pages.show_back_page w
  else call Call.sd_card_show w

/-- The `switch` of `Controls::do_dispatch`: the screen's own command table, the
labels in the order of the source.  `none` is the `default` label. -/
def Controls.own_table (B : Build σp σx) (isPrinting isPrintingPaused : Bool)
    (key_value : KeyValue) (w : World σp σx) : Option (World σp σx) :=
  if key_value = B.keys.Temps then some (Controls.show_temps isPrinting isPrintingPaused w)
  else if key_value = B.keys.Print then some (Controls.show_print B isPrinting isPrintingPaused w)
  else if key_value = B.keys.Controls then some (Pages.show Page.Controls w)
  else if key_value = B.keys.Tuning then some (Pages.show Page.Tuning w)
  else if key_value = B.keys.Settings then some (Pages.show Page.Settings w)
  else if key_value = B.keys.Infos then some (Pages.show Page.Infos w)
  else if key_value = B.keys.Motors then some (Pages.show Page.MotorsSettings w)
  else if key_value = B.keys.Leveling then some (Pages.show Page.Leveling w)
  else if key_value = B.keys.PrintSettings then
    some (Controls.show_print_settings isPrinting isPrintingPaused w)
  else if key_value = B.keys.Back then some (call Call.back_command w)
  else none

/-- Member function `Controls::do_dispatch`.  The source does not call `Parent::do_dispatch`. -/
def Controls.do_dispatch (B : Build σp σx) (isPrinting isPrintingPaused : Bool)
    (key_value : KeyValue) (w : World σp σx) : Bool × World σp σx :=
  match Controls.own_table B isPrinting isPrintingPaused key_value w with
  | some w => (true, w)
  | none => (false, w)

/-- The command codes of the own table of `SensorZHeight::do_dispatch`. -/
def SensorZHeight.own_keys (B : Build σp σx) : List KeyValue :=
  [B.keys.Multiplier1, B.keys.Multiplier2, B.keys.Multiplier3]

/-- The command codes of the own table of `Controls::do_dispatch`. -/
def Controls.own_keys (B : Build σp σx) : List KeyValue :=
  [B.keys.Temps, B.keys.Print, B.keys.Controls, B.keys.Tuning, B.keys.Settings, B.keys.Infos,
    B.keys.Motors, B.keys.Leveling, B.keys.PrintSettings, B.keys.Back]

/-- The resolution order in the words of the specification: the screen's own
command table is tried first; if it does not match, control falls back to the
base handler's table; otherwise the command is unhandled. -/
def dispatch_local_first (own : KeyValue → World σp σx → Option (World σp σx))
    (base : KeyValue → World σp σx → Bool × World σp σx)
    (key_value : KeyValue) (w : World σp σx) : Bool × World σp σx :=
  match own key_value w with
  | some w => (true, w)
  | none => base key_value w

/-! ## Assumptions on the sub-records and reference instances -/

/-- The 16-bit value stored at the cursor, least significant byte first. -/
def Eeprom.stored_version (e : Eeprom) : Nat :=
  e.mem e.index % 256 + 256 * (e.mem (e.index + 1) % 256)

/-- A sub-record keeps to its declared size: each of its three passes leaves the
cursor exactly `size_of` bytes further. -/
def SubRecord.Advances {σ : Type} (R : SubRecord σ) : Prop :=
  ∀ (s : σ) (e : Eeprom),
    (R.write s e).index = e.index + R.size_of ∧
    (R.read s e).2.index = e.index + R.size_of ∧
    (R.validate s e).2.2.index = e.index + R.size_of

/-- A sub-record's read undoes its write: the write pass stores the record in the
`size_of` bytes at the cursor and touches no byte below the cursor; the read pass,
started at the cursor where a record was written and over any store that still
holds those bytes, gives that record back, leaves the cursor behind it and leaves
the stored bytes as they are. -/
def SubRecord.ReadUndoesWrite {σ : Type} (R : SubRecord σ) : Prop :=
  ∀ (s : σ) (e : Eeprom),
    (R.write s e).index = e.index + R.size_of ∧
    (∀ a, a < e.index → (R.write s e).mem a = e.mem a) ∧
    ∀ (s0 : σ) (e' : Eeprom), e'.index = e.index →
      (∀ a, e.index ≤ a → a < e.index + R.size_of → e'.mem a = (R.write s e).mem a) →
      (R.read s0 e').1 = s ∧ (R.read s0 e').2.index = e.index + R.size_of ∧
        (R.read s0 e').2.mem = e'.mem

/-- A sub-record of the shape the specification describes, built from the codec:
a version byte followed by one byte of content. -/
def SubRecord.versioned_byte (crc16 : Nat → Nat → Nat) (version : Nat) : SubRecord (Fin 256) where
  write := fun s e => EepromWrite.write crc16 1 s.val (EepromWrite.write crc16 1 version e)
  read := fun _ e =>
    let r1 := EepromRead.read crc16 1 e
    let r2 := EepromRead.read crc16 1 r1.2
    (Fin.ofNat r2.1, r2.2)
  validate := fun s e =>
    let r1 := EepromRead.read crc16 1 e
    let r2 := EepromRead.read crc16 1 r1.2
    (r1.1 == version % 256, s, r2.2)
  size_of := 2
  defaults := 0

/-- A reference build: 16-bit feature mask, two versioned one-byte sub-records, an
additive checksum, and key codes in which the screens reuse the low codes. -/
def Build.reference : Build (Fin 256) (Fin 256) where
  settings_version := 5
  DEFAULT_FEATURES := 15
  sizeof_Feature := 2
  crc16 := fun crc b => (crc + b) % 65536
  FEEDRATE_Z := 20
  home_page := Page.other 22
  default_delay := 500
  keys :=
    { Temps := 0, Print := 1, Controls := 2, Tuning := 3, Settings := 4, Infos := 5, Motors := 6,
      Leveling := 7, PrintSettings := 8, Back := 65535,
      Multiplier1 := 1, Multiplier2 := 2, Multiplier3 := 3 }
  pid_settings :=
    { toSubRecord := SubRecord.versioned_byte (fun crc b => (crc + b) % 65536) 1
      choose_best_pid := fun _ t _ => Fin.ofNat t }
  xtwist := SubRecord.versioned_byte (fun crc b => (crc + b) % 65536) 2

/-- A reference state: an erased store (every byte `0xFF`), cursor `0`, the LCD on
the Controls page, nothing pending. -/
def World.reference : World (Fin 256) (Fin 256) where
  pid_settings := 7
  xtwist := 9
  features_ := 0x0105
  last_used_temperature_ := (50, 200)
  eeprom_mismatch := false
  pages := { current := Page.Controls, forward := none, back := none }
  background_task := none
  sensor_z_height := { multiplier_ := Multiplier.M2, old_offset_ := 0 }
  eeprom := { mem := fun _ => 255, index := 0, crc := 0 }
  calls := []

/-- The reference state after a restart: factory content in memory, the cursor
back at `0`, the store as the write pass over `World.reference` left it. -/
def World.restarted : World (Fin 256) (Fin 256) where
  pid_settings := 0
  xtwist := 0
  features_ := 15
  last_used_temperature_ := (0, 0)
  eeprom_mismatch := false
  pages := { current := Page.other 22, forward := none, back := none }
  background_task := none
  sensor_z_height := { multiplier_ := Multiplier.M1, old_offset_ := 0 }
  eeprom := { mem := (Settings.write Build.reference World.reference).2.eeprom.mem, index := 0, crc := 0 }
  calls := []

/-- The reference state with the settings-look-corrupted indicator raised. -/
def World.mismatched : World (Fin 256) (Fin 256) :=
  EepromMismatch.set_mismatch World.reference

/-- A base handler for the reference build: it matches the Save code `0xFFFE` and
the Back code `0xFFFF` and no other command. -/
def Parent.reference (key_value : KeyValue) (w : World (Fin 256) (Fin 256)) :
    Bool × World (Fin 256) (Fin 256) :=
  if key_value = 65534 then (true, call Call.Parent_do_save_command w)
  else if key_value = 65535 then (true, call Call.Parent_do_back_command w)
  else (false, w)

/-- The reference state once the Z-height screen has been prepared while the
printer is idle: the homing task is pending. -/
def World.homing : World (Fin 256) (Fin 256) :=
  (SensorZHeight.do_prepare_page true 0 World.reference).2

/-- A base handler that matches no command. -/
def Parent.none (_ : KeyValue) (w : World σp σx) : Bool × World σp σx :=
  (false, w)

end Model

/-! ## Codec lemmas -/

section Codec

variable (f : Nat → Nat → Nat)

theorem EepromWrite.write_index (n v : Nat) (e : Eeprom) :
    (EepromWrite.write f n v e).index = e.index + n := by
  induction n generalizing v e with
  | zero => simp [EepromWrite.write]
  | succ n ih =>
    rw [EepromWrite.write, ih]
    push_cast
    ring

theorem EepromWrite.write_mem_outside (n v : Nat) (e : Eeprom) (a : Int)
    (h : a < e.index ∨ e.index + n ≤ a) :
    (EepromWrite.write f n v e).mem a = e.mem a := by
  induction n generalizing v e with
  | zero => simp [EepromWrite.write]
  | succ n ih =>
    rw [EepromWrite.write, ih]
    · have hne : a ≠ e.index := by
        push_cast at h
        omega
      simp [Function.update_noteq hne]
    · push_cast at h
      simp only
      omega

theorem EepromRead.read_index (n : Nat) (e : Eeprom) :
    (EepromRead.read f n e).2.index = e.index + n := by
  induction n generalizing e with
  | zero => simp [EepromRead.read]
  | succ n ih =>
    rw [EepromRead.read]
    simp only [ih]
    push_cast
    ring

theorem EepromRead.read_mem (n : Nat) (e : Eeprom) :
    (EepromRead.read f n e).2.mem = e.mem := by
  induction n generalizing e with
  | zero => simp [EepromRead.read]
  | succ n ih =>
    rw [EepromRead.read]
    simp only [ih]

/-- Reading `n` bytes where a value was written gives the value back, truncated to
`n` bytes, whatever the store holds elsewhere. -/
theorem EepromRead.read_write (g : Nat → Nat → Nat) (n v : Nat) (e e' : Eeprom)
    (hidx : e'.index = e.index)
    (hmem : ∀ a, e.index ≤ a → a < e.index + n →
      e'.mem a = (EepromWrite.write f n v e).mem a) :
    (EepromRead.read g n e').1 = v % 256 ^ n := by
  induction n generalizing v e e' with
  | zero => simp [EepromRead.read, Nat.mod_one]
  | succ n ih =>
    rw [EepromRead.read]
    simp only
    have hb : e'.mem e'.index = v % 256 := by
      rw [hidx, hmem e.index (le_refl _) (by push_cast; omega), EepromWrite.write,
        EepromWrite.write_mem_outside]
      · simp
      · left
        simp
    have hrest := ih (v / 256)
      { mem := Function.update e.mem e.index (v % 256)
        index := e.index + 1
        crc := f e.crc (v % 256) }
      { e' with index := e'.index + 1, crc := g e'.crc (e'.mem e'.index % 256) }
      (by simp [hidx])
      (by
        intro a h1 h2
        have := hmem a (by simp only at h1; omega) (by simp only at h2; push_cast; omega)
        rw [EepromWrite.write] at this
        simpa using this)
    rw [hrest, hb, Nat.mod_mod, pow_succ', Nat.mod_mul]

theorem SubRecord.versioned_byte_advances (version : Nat) :
    (SubRecord.versioned_byte f version).Advances := by
  intro s e
  simp only [SubRecord.versioned_byte, EepromWrite.write_index, EepromRead.read_index]
  refine ⟨?_, ?_, ?_⟩ <;> push_cast <;> ring

theorem SubRecord.versioned_byte_readUndoesWrite (version : Nat) :
    (SubRecord.versioned_byte f version).ReadUndoesWrite := by
  intro s e
  refine ⟨?_, ?_, ?_⟩
  · simp only [SubRecord.versioned_byte, EepromWrite.write_index]
    push_cast
    ring
  · intro a ha
    simp only [SubRecord.versioned_byte]
    rw [EepromWrite.write_mem_outside, EepromWrite.write_mem_outside]
    · exact Or.inl ha
    · rw [EepromWrite.write_index]
      left
      omega
  · intro s0 e' hidx hmem
    simp only [SubRecord.versioned_byte] at hmem ⊢
    refine ⟨?_, ?_, ?_⟩
    · have h := EepromRead.read_write f f 1 s.val (EepromWrite.write f 1 version e)
        (EepromRead.read f 1 e').2
        (by rw [EepromRead.read_index, EepromWrite.write_index, hidx])
        (by
          intro a h1 h2
          rw [EepromWrite.write_index] at h1 h2
          rw [EepromRead.read_mem]
          exact hmem a (by omega) (by push_cast at h2 ⊢; omega))
      rw [h]
      apply Fin.ext
      simp [Fin.ofNat, Nat.mod_eq_of_lt s.isLt]
    · rw [EepromRead.read_index, EepromRead.read_index, hidx]
      push_cast
      ring
    · rw [EepromRead.read_mem, EepromRead.read_mem]

end Codec

/-! ## The settings record -/

section SettingsTheorems

variable {σp σx : Type}

theorem Settings.round_trip_at (B : Build σp σx)
    (hpid : B.pid_settings.toSubRecord.ReadUndoesWrite) (hxt : B.xtwist.ReadUndoesWrite)
    (w w0 : World σp σx) (hf : w.features_ < 256 ^ B.sizeof_Feature)
    (hidx : w0.eeprom.index = w.eeprom.index)
    (hmem : w0.eeprom.mem = (Settings.write B w).2.eeprom.mem) :
    (Settings.read B w0).features_ = w.features_ ∧
      (Settings.read B w0).pid_settings = w.pid_settings ∧
      (Settings.read B w0).xtwist = w.xtwist := by
  simp only [Settings.write] at hmem
  simp only [Settings.read]
  -- the four stages of the write pass
  set e1 := EepromWrite.write B.crc16 2 B.settings_version w.eeprom with he1
  set e2 := B.pid_settings.write w.pid_settings e1 with he2
  set e3 := B.xtwist.write w.xtwist e2 with he3
  have i1 : e1.index = w.eeprom.index + 2 := by
    rw [he1, EepromWrite.write_index]
    rfl
  obtain ⟨i2, _, hp⟩ := hpid w.pid_settings e1
  obtain ⟨i3, x3, hx⟩ := hxt w.xtwist e2
  rw [← he2] at i2 hp
  rw [← he3] at i3 x3 hx
  -- the stages of the read pass
  set r1 := EepromRead.read B.crc16 2 w0.eeprom with hr1
  have j1 : r1.2.index = e1.index := by
    rw [hr1, EepromRead.read_index, hidx, i1]
    rfl
  have m1 : r1.2.mem = w0.eeprom.mem := by rw [hr1, EepromRead.read_mem]
  obtain ⟨p1, p2, p3⟩ := hp w0.pid_settings r1.2 j1 (by
    intro a h1 h2
    rw [m1, hmem, EepromWrite.write_mem_outside _ _ _ _ _ (Or.inl (by omega))]
    exact x3 a (by omega))
  set r2 := B.pid_settings.read w0.pid_settings r1.2 with hr2
  obtain ⟨q1, q2, q3⟩ := hx w0.xtwist r2.2 (by rw [p2, i2]) (by
    intro a h1 h2
    rw [p3, m1, hmem, EepromWrite.write_mem_outside _ _ _ _ _ (Or.inl (by omega))])
  set r3 := B.xtwist.read w0.xtwist r2.2 with hr3
  refine ⟨?_, p1, q1⟩
  rw [EepromRead.read_write B.crc16 B.crc16 B.sizeof_Feature w.features_ e3 r3.2 (by rw [q2, i3])
    (by
      intro a _ _
      rw [q3, p3, m1, hmem])]
  exact Nat.mod_eq_of_lt hf

/-- C1: writing the settings from cursor 0 and then loading them without
validation from cursor 0 over the bytes just written gives back the feature mask
and both sub-records, provided each sub-record's read undoes its write. -/
theorem Settings.write_then_load_round_trip (B : Build σp σx)
    (hpid : B.pid_settings.toSubRecord.ReadUndoesWrite) (hxt : B.xtwist.ReadUndoesWrite)
    (w w0 : World σp σx) (hf : w.features_ < 256 ^ B.sizeof_Feature)
    (hw : w.eeprom.index = 0) (hw0 : w0.eeprom.index = 0)
    (hmem : w0.eeprom.mem = (Settings.write B w).2.eeprom.mem) :
    (Settings.on_load_settings B false w0).1 = true ∧
      (Settings.on_load_settings B false w0).2.features_ = w.features_ ∧
      (Settings.on_load_settings B false w0).2.pid_settings = w.pid_settings ∧
      (Settings.on_load_settings B false w0).2.xtwist = w.xtwist := by
  refine ⟨by simp [Settings.on_load_settings], ?_⟩
  simpa [Settings.on_load_settings] using
    Settings.round_trip_at B hpid hxt w w0 hf (by rw [hw, hw0]) hmem

/-- Witness for C1 on the reference build: what was written from the reference
state is what a restarted firmware loads. -/
theorem Settings.write_then_load_round_trip_witness :
    (Settings.on_load_settings Build.reference false World.restarted).1 = true ∧
      (Settings.on_load_settings Build.reference false World.restarted).2.features_ = 0x0105 ∧
      (Settings.on_load_settings Build.reference false World.restarted).2.pid_settings = 7 ∧
      (Settings.on_load_settings Build.reference false World.restarted).2.xtwist = 9 :=
  Settings.write_then_load_round_trip Build.reference
    (SubRecord.versioned_byte_readUndoesWrite _ 1) (SubRecord.versioned_byte_readUndoesWrite _ 2)
    World.reference World.restarted (by decide) rfl rfl rfl

theorem EepromRead.read_two (f : Nat → Nat → Nat) (e : Eeprom) :
    (EepromRead.read f 2 e).1 = e.stored_version := by
  simp [EepromRead.read, Eeprom.stored_version]

/-- C2: the validating load answers valid exactly when the stored 16-bit schema
version is the compiled one and both sub-record validations succeed; a differing
stored version makes the answer invalid whatever else is stored; both sub-record
validations and the read of the stored flags are run in every case. -/
theorem Settings.validating_load_iff (B : Build σp σx) (w : World σp σx) :
    ((Settings.on_load_settings B true w).1 = true ↔
      w.eeprom.stored_version = B.settings_version ∧
      (B.pid_settings.validate w.pid_settings (EepromRead.read B.crc16 2 w.eeprom).2).1 = true ∧
      (B.xtwist.validate w.xtwist
        (B.pid_settings.validate w.pid_settings (EepromRead.read B.crc16 2 w.eeprom).2).2.2).1
          = true) ∧
    (w.eeprom.stored_version ≠ B.settings_version →
      (Settings.on_load_settings B true w).1 = false) ∧
    (Settings.on_load_settings B true w).2.pid_settings =
      (B.pid_settings.validate w.pid_settings (EepromRead.read B.crc16 2 w.eeprom).2).2.1 ∧
    (Settings.on_load_settings B true w).2.xtwist =
      (B.xtwist.validate w.xtwist
        (B.pid_settings.validate w.pid_settings (EepromRead.read B.crc16 2 w.eeprom).2).2.2).2.1 ∧
    (Settings.on_load_settings B true w).2.eeprom =
      (EepromRead.read B.crc16 B.sizeof_Feature
        (B.xtwist.validate w.xtwist
          (B.pid_settings.validate w.pid_settings
            (EepromRead.read B.crc16 2 w.eeprom).2).2.2).2.2).2 ∧
    (Settings.on_load_settings B true w).2.features_ = w.features_ := by
  have hv := EepromRead.read_two B.crc16 w.eeprom
  refine ⟨?_, ?_, rfl, rfl, rfl, rfl⟩ <;>
    simp only [Settings.on_load_settings, Settings.validate, if_true, hv]
  · by_cases h1 : w.eeprom.stored_version = B.settings_version <;>
    cases h2 : (B.pid_settings.validate w.pid_settings (EepromRead.read B.crc16 2 w.eeprom).2).1 <;>
    cases h3 : (B.xtwist.validate w.xtwist
        (B.pid_settings.validate w.pid_settings (EepromRead.read B.crc16 2 w.eeprom).2).2.2).1 <;>
    simp [h1]
  · intro h1
    simp [h1]

/-- Witness for C2: over an erased store the stored version is `0xFFFF`, not the
compiled one, and the validating load answers invalid. -/
theorem Settings.validating_load_iff_witness :
    World.reference.eeprom.stored_version ≠ Build.reference.settings_version ∧
      (Settings.on_load_settings Build.reference true World.reference).1 = false :=
  ⟨by decide, (Settings.validating_load_iff Build.reference World.reference).2.1 (by decide)⟩

/-- C3: when each sub-record keeps to its declared size and the declared total
fits the 16-bit result of `size_of`, the write pass, the read pass and the
validation pass each leave the cursor exactly `size_of()` bytes further, and
`size_of()` is 2 plus the two sub-record sizes plus the width of the feature
mask. -/
theorem Settings.passes_advance_by_size_of (B : Build σp σx)
    (hpid : B.pid_settings.toSubRecord.Advances) (hxt : B.xtwist.Advances)
    (hfit : 2 + B.pid_settings.size_of + B.xtwist.size_of + B.sizeof_Feature < 2 ^ 16)
    (w : World σp σx) :
    Settings.size_of B = 2 + B.pid_settings.size_of + B.xtwist.size_of + B.sizeof_Feature ∧
      (Settings.write B w).2.eeprom.index = w.eeprom.index + Settings.size_of B ∧
      (Settings.read B w).eeprom.index = w.eeprom.index + Settings.size_of B ∧
      (Settings.validate B w).2.eeprom.index = w.eeprom.index + Settings.size_of B := by
  have hs : Settings.size_of B =
      2 + B.pid_settings.size_of + B.xtwist.size_of + B.sizeof_Feature := by
    unfold Settings.size_of
    exact Nat.mod_eq_of_lt hfit
  refine ⟨hs, ?_, ?_, ?_⟩
  · simp only [Settings.write, EepromWrite.write_index, (hxt _ _).1, (hpid _ _).1, hs]
    push_cast
    ring
  · simp only [Settings.read, EepromRead.read_index, (hxt _ _).2.1, (hpid _ _).2.1, hs]
    push_cast
    ring
  · simp only [Settings.validate, EepromRead.read_index, (hxt _ _).2.2, (hpid _ _).2.2, hs]
    push_cast
    ring

/-- Witness for C3 on the reference build, whose record is eight bytes long. -/
theorem Settings.passes_advance_by_size_of_witness :
    Settings.size_of Build.reference = 8 ∧
      (Settings.write Build.reference World.reference).2.eeprom.index = 8 ∧
      (Settings.read Build.reference World.reference).eeprom.index = 8 ∧
      (Settings.validate Build.reference World.reference).2.eeprom.index = 8 :=
  Settings.passes_advance_by_size_of Build.reference
    (SubRecord.versioned_byte_advances _ 1) (SubRecord.versioned_byte_advances _ 2)
    (by decide) World.reference

/-- C4: flipping the same mask twice restores the feature mask (and the whole
state); the second call returns the bits of the mask that were enabled at the
start, the first call the bits of the mask that were not. -/
theorem Settings.flip_features_twice (w : World σp σx) (M : Nat) :
    (Settings.flip_features M (Settings.flip_features M w).2).2.features_ = w.features_ ∧
      (Settings.flip_features M (Settings.flip_features M w).2).2 = w ∧
      (Settings.flip_features M (Settings.flip_features M w).2).1 = w.features_ &&& M ∧
      ∀ i, (Settings.flip_features M w).1.testBit i = (M.testBit i && !w.features_.testBit i) := by
  have hx : (w.features_ ^^^ M) ^^^ M = w.features_ := Nat.xor_cancel_right M w.features_
  refine ⟨?_, ?_, ?_, ?_⟩
  · simp [Settings.flip_features, flip_bits, hx]
  · simp [Settings.flip_features, flip_bits, hx]
  · simp [Settings.flip_features, flip_bits, hx]
  · intro i
    simp only [Settings.flip_features, flip_bits, Nat.testBit_and, Nat.testBit_xor]
    cases w.features_.testBit i <;> cases M.testBit i <;> rfl

/-- C5: a zero target temperature changes nothing at all; a non-zero one becomes
the last-used temperature of its kind, leaves the other kind as it was, and is
handed with its kind to `pid_settings.choose_best_pid`. -/
theorem Settings.on_set_temperature_records (B : Build σp σx) (kind : TemperatureKind)
    (t : Nat) (w : World σp σx) :
    (t = 0 → Settings.on_set_temperature B kind t w = w) ∧
    (t ≠ 0 →
      Settings.get_last_used_temperature kind (Settings.on_set_temperature B kind t w) = t ∧
      (∀ other, other ≠ kind →
        Settings.get_last_used_temperature other (Settings.on_set_temperature B kind t w) =
          Settings.get_last_used_temperature other w) ∧
      (Settings.on_set_temperature B kind t w).pid_settings =
        B.pid_settings.choose_best_pid kind t w.pid_settings) := by
  constructor
  · intro h
    simp [Settings.on_set_temperature, h]
  · intro h
    refine ⟨?_, ?_, ?_⟩
    · cases kind <;>
        simp [Settings.on_set_temperature, h, Settings.get_last_used_temperature, array_get,
          array_set, hotend_index]
    · intro other ho
      cases kind <;> cases other <;>
        simp_all [Settings.on_set_temperature, Settings.get_last_used_temperature, array_get,
          array_set, hotend_index]
    · simp [Settings.on_set_temperature, h]

/-- Witness for C5: from the reference state (bed 50, hotend 200), a hotend target
of 0 changes nothing and a hotend target of 210 is recorded and handed to the PID
sub-record. -/
theorem Settings.on_set_temperature_records_witness :
    Settings.get_last_used_temperature TemperatureKind.Hotend
        (Settings.on_set_temperature Build.reference TemperatureKind.Hotend 0 World.reference)
        = 200 ∧
      Settings.get_last_used_temperature TemperatureKind.Hotend
        (Settings.on_set_temperature Build.reference TemperatureKind.Hotend 210 World.reference)
        = 210 ∧
      Settings.get_last_used_temperature TemperatureKind.Bed
        (Settings.on_set_temperature Build.reference TemperatureKind.Hotend 210 World.reference)
        = 50 ∧
      (Settings.on_set_temperature Build.reference TemperatureKind.Hotend 210
        World.reference).pid_settings = 210 :=
  ⟨by
      rw [(Settings.on_set_temperature_records Build.reference TemperatureKind.Hotend 0
        World.reference).1 rfl]
      rfl,
    ((Settings.on_set_temperature_records Build.reference TemperatureKind.Hotend 210
      World.reference).2 (by decide)).1,
    ((Settings.on_set_temperature_records Build.reference TemperatureKind.Hotend 210
      World.reference).2 (by decide)).2.1 TemperatureKind.Bed (by decide),
    ((Settings.on_set_temperature_records Build.reference TemperatureKind.Hotend 210
      World.reference).2 (by decide)).2.2⟩

/-- C6: resetting twice gives the state that resetting once gives; after a reset
the feature mask is `DEFAULT_FEATURES` and both sub-records hold their defaults;
a reset changes neither the storage pass (stored bytes, cursor, checksum) nor
the last-used temperatures. -/
theorem Settings.reset_idempotent (B : Build σp σx) (w : World σp σx) :
    Settings.reset B (Settings.reset B w) = Settings.reset B w ∧
      (Settings.reset B w).features_ = B.DEFAULT_FEATURES ∧
      (Settings.reset B w).pid_settings = B.pid_settings.defaults ∧
      (Settings.reset B w).xtwist = B.xtwist.defaults ∧
      (Settings.reset B w).eeprom = w.eeprom ∧
      (Settings.reset B w).last_used_temperature_ = w.last_used_temperature_ :=
  ⟨rfl, rfl, rfl, rfl, rfl, rfl⟩

/-- C10: a factory reset always puts the settings back to their defaults; with
the mismatch indicator raised it leaves the navigation state alone and calls
nothing; with the indicator down it resets the navigation state and then shows
the setup page. -/
theorem Settings.on_factory_reset_under_mismatch (B : Build σp σx) (w : World σp σx) :
    (Settings.on_factory_reset B w).features_ = B.DEFAULT_FEATURES ∧
      (Settings.on_factory_reset B w).pid_settings = B.pid_settings.defaults ∧
      (Settings.on_factory_reset B w).xtwist = B.xtwist.defaults ∧
      (EepromMismatch.does_mismatch w = true →
        Settings.on_factory_reset B w = Settings.reset B w ∧
        (Settings.on_factory_reset B w).pages = w.pages ∧
        (Settings.on_factory_reset B w).calls = w.calls) ∧
      (EepromMismatch.does_mismatch w = false →
        Settings.on_factory_reset B w =
          call Call.setup_show (Pages.reset B (Settings.reset B w)) ∧
        (Settings.on_factory_reset B w).pages =
          { current := B.home_page, forward := none, back := none } ∧
        (Settings.on_factory_reset B w).calls = w.calls ++ [Call.setup_show]) := by
  cases h : w.eeprom_mismatch <;>
    simp [Settings.on_factory_reset, Settings.reset, EepromMismatch.does_mismatch, h, call,
      Pages.reset, SubRecord.reset]

/-- Witness for C10: with the indicator raised the Controls page stays current
and nothing is shown; with the indicator down the home page becomes current and
the setup page is shown. -/
theorem Settings.on_factory_reset_under_mismatch_witness :
    ((Settings.on_factory_reset Build.reference World.mismatched).pages.current = Page.Controls ∧
      (Settings.on_factory_reset Build.reference World.mismatched).calls = []) ∧
    ((Settings.on_factory_reset Build.reference World.reference).pages.current = Page.other 22 ∧
      (Settings.on_factory_reset Build.reference World.reference).calls = [Call.setup_show]) :=
  ⟨by
      have h := ((Settings.on_factory_reset_under_mismatch Build.reference
        World.mismatched).2.2.2.1 rfl).2
      exact ⟨by rw [h.1]; rfl, by rw [h.2]; rfl⟩,
    by
      have h := ((Settings.on_factory_reset_under_mismatch Build.reference
        World.reference).2.2.2.2 rfl).2
      exact ⟨by rw [h.1]; rfl, by rw [h.2]; rfl⟩⟩

/-- C8, the claim refuted: with the mismatch indicator raised, the store hook
runs the whole write pass and the indicator is still raised afterwards. -/
theorem Settings.on_store_settings_keeps_mismatch :
    EepromMismatch.does_mismatch World.mismatched = true ∧
      EepromMismatch.does_mismatch
        (Settings.on_store_settings Build.reference World.mismatched) = true ∧
      EepromMismatch.does_mismatch
        (Settings.write Build.reference World.mismatched).2 = true :=
  ⟨rfl, rfl, rfl⟩

/-- C8 as amended: `Settings::save` clears the mismatch indicator, whatever the
state and whatever the outcome the storage layer reports; the write pass itself
(`Settings::on_store_settings`, `Settings::write`) leaves the indicator exactly as
it found it. -/
theorem Settings.save_clears_mismatch (B : Build σp σx) (success : Bool) (w : World σp σx) :
    EepromMismatch.does_mismatch (Settings.save B success w) = false ∧
      EepromMismatch.does_mismatch (Settings.on_store_settings B w) =
        EepromMismatch.does_mismatch w ∧
      EepromMismatch.does_mismatch (Settings.write B w).2 = EepromMismatch.does_mismatch w :=
  ⟨rfl, rfl, rfl⟩

end SettingsTheorems

/-! ## Screens -/

section ScreenTheorems

variable {σp σx : Type}

/-- C9: `post_home_task` changes nothing while the core is busy or the machine is
not homed; once the core is idle and the machine homed it clears the deferred
task, puts the multiplier back to `M1` and makes `Page::ZHeightTuning` current.
`do_prepare_page` (build with the probe) returns `Page::None` in every case; when
`core.ensure_not_printing()` holds it saves the current page as forward page,
leaves the current page as it is and leaves `post_home_task` pending with a delay
of 200; otherwise it touches neither the pages nor the deferred task. -/
theorem SensorZHeight.no_navigation_before_homed (B : Build σp σx)
    (is_busy isMachineHomed ensure_not_printing : Bool) (z : ℚ) (w : World σp σx) :
    ((is_busy = true ∨ isMachineHomed = false) →
      SensorZHeight.post_home_task B is_busy isMachineHomed w = w) ∧
    (is_busy = false → isMachineHomed = true →
      (SensorZHeight.post_home_task B is_busy isMachineHomed w).background_task = none ∧
      (SensorZHeight.post_home_task B is_busy isMachineHomed w).sensor_z_height.multiplier_ =
        Multiplier.M1 ∧
      (SensorZHeight.post_home_task B is_busy isMachineHomed w).pages.current =
        Page.ZHeightTuning) ∧
    (SensorZHeight.do_prepare_page ensure_not_printing z w).1 = Page.None ∧
    (ensure_not_printing = true →
      (SensorZHeight.do_prepare_page ensure_not_printing z w).2.pages.forward =
        some w.pages.current ∧
      (SensorZHeight.do_prepare_page ensure_not_printing z w).2.pages.current =
        w.pages.current ∧
      (SensorZHeight.do_prepare_page ensure_not_printing z w).2.background_task =
        some { callback := Callback.SensorZHeight_post_home_task, delay := 200 }) ∧
    (ensure_not_printing = false →
      (SensorZHeight.do_prepare_page ensure_not_printing z w).2.pages = w.pages ∧
      (SensorZHeight.do_prepare_page ensure_not_printing z w).2.background_task =
        w.background_task) := by
  refine ⟨?_, ?_, ?_, ?_, ?_⟩
  · rintro (h | h) <;> simp [SensorZHeight.post_home_task, h]
  · intro h1 h2
    simp [SensorZHeight.post_home_task, h1, h2, Pages.show, SensorZHeight.send_data, call,
      SensorZHeight.reset, BackgroundTask.clear]
  · cases ensure_not_printing <;> simp [SensorZHeight.do_prepare_page]
  · intro h
    simp [SensorZHeight.do_prepare_page, h, BackgroundTask.set, call, Pages.save_forward_page]
  · intro h
    simp [SensorZHeight.do_prepare_page, h, call]

/-- Witness for C9: from the reference state prepared for homing, the task is
pending with delay 200 and the Controls page is still current; a poll while the
machine is not homed changes nothing; a poll once it is homed clears the task and
shows the tuning page. -/
theorem SensorZHeight.no_navigation_before_homed_witness :
    (World.homing.background_task =
        some { callback := Callback.SensorZHeight_post_home_task, delay := 200 } ∧
      World.homing.pages.current = Page.Controls ∧
      World.homing.pages.forward = some Page.Controls) ∧
    (SensorZHeight.post_home_task Build.reference false false World.homing).pages.current =
      Page.Controls ∧
    ((SensorZHeight.post_home_task Build.reference false true World.homing).background_task =
        none ∧
      (SensorZHeight.post_home_task Build.reference false true World.homing).pages.current =
        Page.ZHeightTuning) :=
  ⟨by
      have h := (SensorZHeight.no_navigation_before_homed Build.reference false false true 0
        World.reference).2.2.2.1 rfl
      exact ⟨h.2.2, h.2.1, h.1⟩,
    by
      rw [(SensorZHeight.no_navigation_before_homed Build.reference false false true 0
        World.homing).1 (Or.inr rfl)]
      rfl,
    by
      have h := (SensorZHeight.no_navigation_before_homed Build.reference false true true 0
        World.homing).2.1 rfl rfl
      exact ⟨h.1, h.2.2⟩⟩

/-- C7, the claim refuted: in the reference build the Save code `0xFFFE` is in no
row of the own table of `Controls`, the base handler matches it, and
`Controls::do_dispatch` still answers unhandled, where the own-table-then-base
order of the specification answers handled. -/
theorem Controls.do_dispatch_never_falls_back :
    (Controls.own_table Build.reference false false 65534 World.reference).isNone = true ∧
      (Parent.reference 65534 World.reference).1 = true ∧
      (Controls.do_dispatch Build.reference false false 65534 World.reference).1 = false ∧
      (dispatch_local_first (Controls.own_table Build.reference false false) Parent.reference
        65534 World.reference).1 = true :=
  ⟨by decide, by decide, by decide, by decide⟩

theorem ite_some_eq_none {α : Type} (c : Prop) [Decidable c] (a : α) (o : Option α) :
    (if c then some a else o) = none ↔ ¬ c ∧ o = none := by
  by_cases h : c <;> simp [h]

theorem Controls.controls_table_none_iff (B : Build σp σx) (isPrinting isPrintingPaused : Bool)
    (k : KeyValue) (w : World σp σx) :
    Controls.own_table B isPrinting isPrintingPaused k w = none ↔ k ∉ Controls.own_keys B := by
  unfold Controls.own_table Controls.own_keys
  simp only [ite_some_eq_none, List.mem_cons, List.mem_singleton, List.not_mem_nil, or_false,
    not_or, and_true]

theorem SensorZHeight.z_height_table_none_iff (B : Build σp σx) (k : KeyValue) (w : World σp σx) :
    SensorZHeight.own_table B k w = none ↔ k ∉ SensorZHeight.own_keys B := by
  unfold SensorZHeight.own_table SensorZHeight.own_keys
  simp only [ite_some_eq_none, List.mem_cons, List.mem_singleton, List.not_mem_nil, or_false,
    not_or, and_true]

/-- C7 as amended: `SensorZHeight::do_dispatch` hands the command to the base
handler first and consults its own table only when the base handler did not
handle it, so it answers unhandled exactly when neither matches;
`Controls::do_dispatch` consults its own table only, never the base handler, so
it answers unhandled exactly when the command is in no row of its own table. -/
theorem dispatch_resolution_order (B : Build σp σx)
    (Parent_do_dispatch : KeyValue → World σp σx → Bool × World σp σx)
    (isPrinting isPrintingPaused : Bool) (k : KeyValue) (w : World σp σx) :
    SensorZHeight.do_dispatch B Parent_do_dispatch k w =
        (if (Parent_do_dispatch k w).1 then (true, (Parent_do_dispatch k w).2)
         else dispatch_local_first (SensorZHeight.own_table B) Parent.none k
           (Parent_do_dispatch k w).2) ∧
      ((SensorZHeight.do_dispatch B Parent_do_dispatch k w).1 = false ↔
        (Parent_do_dispatch k w).1 = false ∧ k ∉ SensorZHeight.own_keys B) ∧
      Controls.do_dispatch B isPrinting isPrintingPaused k w =
        dispatch_local_first (Controls.own_table B isPrinting isPrintingPaused) Parent.none k w ∧
      ((Controls.do_dispatch B isPrinting isPrintingPaused k w).1 = false ↔
        k ∉ Controls.own_keys B) := by
  refine ⟨?_, ?_, ?_, ?_⟩
  · simp only [SensorZHeight.do_dispatch, dispatch_local_first, Parent.none]
  · rw [← SensorZHeight.z_height_table_none_iff B k (Parent_do_dispatch k w).2]
    unfold SensorZHeight.do_dispatch
    cases hp : (Parent_do_dispatch k w).1 <;>
      cases ho : SensorZHeight.own_table B k (Parent_do_dispatch k w).2 <;> simp [hp, ho]
  · simp only [Controls.do_dispatch, dispatch_local_first, Parent.none]
  · rw [← Controls.controls_table_none_iff B isPrinting isPrintingPaused k w]
    unfold Controls.do_dispatch
    cases ho : Controls.own_table B isPrinting isPrintingPaused k w <;> simp [ho]

end ScreenTheorems

end ADVi3pp
